import Mathlib

/-!
Shallow embedding of the bitwire Go client (client.go, the revision with the
self-refreshing token manager).  Pure data types mirror the Go structs; the
network is modelled by an explicit Exchange value describing what one
sling Receive call delivered (transport error, decoded success payload,
decoded error payload, and the HTTP status code, which the Go code discards).
Stateful methods on Client become functions returning the result, the new
client state, and the list of HTTP requests issued (the trace).
-/

namespace Bitwire

deriving instance DecidableEq for Except

/-- Base URL for production mode (const baseURL in client.go). -/
def baseURL : String := "https://www.bitwire.co/api/v1/"

/-- Base URL for sandbox mode (const sandboxBaseURL in client.go). -/
def sandboxBaseURL : String := "https://sandbox.bitwire.co/api/v1/"

/-- Go: type Token struct.  ExpiresIn is int, ValidUntil int64; both become Int. -/
structure Token where
  tokenType : String
  accessToken : String
  refreshToken : String
  expiresIn : Int
  validUntil : Int
  deriving DecidableEq, Repr

/-- The zero value of Token, the Go sentinel for unauthenticated. -/
def Token.zero : Token := ⟨"", "", "", 0, 0⟩

/-- Go: type Credentials struct {ClientId, ClientSecret, GrantType}. -/
structure Credentials where
  clientId : String
  clientSecret : String
  grantType : String
  deriving DecidableEq, Repr

/-- The zero value of Credentials. -/
def Credentials.zero : Credentials := ⟨"", "", ""⟩

/-- Go: type LoginCredentials struct {Credentials; Username; Password}. -/
structure LoginCredentials where
  credentials : Credentials
  username : String
  password : String
  deriving DecidableEq, Repr

/-- Go: type TokenCredentials struct {Credentials; RefreshToken}. -/
structure TokenCredentials where
  credentials : Credentials
  refreshToken : String
  deriving DecidableEq, Repr

/-- Go: type Config struct {Credentials; Token}. -/
structure Config where
  credentials : Credentials
  token : Token
  deriving DecidableEq, Repr

/-- Go: type Client struct {Mode; token; credentials}.  Mode is a string type. -/
structure Client where
  mode : String
  token : Token
  credentials : Credentials
  deriving DecidableEq, Repr

/-- Go: type Error struct with an embedding into ErrorRes; the embedded Res
contributes the code field, so ErrorRes flattens to three fields. -/
structure ErrorRes where
  code : Int
  message : String
  errorType : String
  deriving DecidableEq, Repr

/-- The zero value compared against by callApi. -/
def ErrorRes.zero : ErrorRes := ⟨0, "", ""⟩

/-- Go: type TokenRes struct {Res; Token} — code field plus flattened token. -/
structure TokenRes where
  code : Int
  token : Token
  deriving DecidableEq, Repr

/-- Go: Rates is map[string]string; modelled as an association list. -/
def Rates := List (String × String)
  deriving DecidableEq, Repr

/-- Go: type AllRates struct {BTC, FX Rates}. -/
structure AllRates where
  btc : Rates
  fx : Rates
  deriving DecidableEq, Repr

/-- Go: type Bank struct. -/
structure Bank where
  id : Int
  number : String
  displayName : String
  name : String
  nameKo : String
  deriving DecidableEq, Repr

/-- Go: type RecipientBank struct {Bank; AccountNumber; AccountName}. -/
structure RecipientBank where
  bank : Bank
  accountNumber : String
  accountName : String
  deriving DecidableEq, Repr

/-- Go: type Recipient struct. -/
structure Recipient where
  id : Int
  name : String
  email : String
  bank : RecipientBank
  deriving DecidableEq, Repr

/-- Go: type TransferRecipient struct {Recipient; Currency; Amount}. -/
structure TransferRecipient where
  recipient : Recipient
  currency : String
  amount : String
  deriving DecidableEq, Repr

/-- Go: type BTC struct (payment address block inside a transfer). -/
structure BTC where
  address : String
  link : String
  expiration : Int
  deriving DecidableEq, Repr

/-- Go: type Sender struct. -/
structure Sender where
  amount : String
  currency : String
  deriving DecidableEq, Repr

/-- Go: type Transfer struct. -/
structure Transfer where
  id : String
  sender : Sender
  typ : String
  memo : String
  amount : String
  currency : String
  status : String
  date : String
  btc : BTC
  recipient : TransferRecipient
  deriving DecidableEq, Repr

/-- Go: type CreateTransfer struct (POST payload). -/
structure CreateTransfer where
  amount : String
  currency : String
  recipientId : Int
  memo : String
  typ : String
  deriving DecidableEq, Repr

/-- Go: the used/limit pair appearing inside TransferLimits. -/
structure UsedLimit where
  used : Int
  lim : Int
  deriving DecidableEq, Repr

/-- Go: type TransferLimits struct {Pending {Total}; Completed {Daily}}. -/
structure TransferLimits where
  pendingTotal : UsedLimit
  completedDaily : UsedLimit
  deriving DecidableEq, Repr

/-- Go: type KrwLimits struct {Used, Left, Limit string}. -/
structure KrwLimits where
  used : String
  left : String
  lim : String
  deriving DecidableEq, Repr

/-- Go: the KRW block of Limits. -/
structure KrwBlock where
  min : String
  daily : KrwLimits
  weekly : KrwLimits
  deriving DecidableEq, Repr

/-- Go: type Limits struct {Transfers; KRW; BTC {Min}}. -/
structure Limits where
  transfers : TransferLimits
  krw : KrwBlock
  btcMin : String
  deriving DecidableEq, Repr

/-- Go: response wrapper structs {Res; payload}. -/
structure AllRatesRes where
  code : Int
  rates : AllRates
  deriving DecidableEq, Repr

/-- Go: type FxRatesRes struct. -/
structure FxRatesRes where
  code : Int
  rates : Rates
  deriving DecidableEq, Repr

/-- Go: type BtcRatesRes struct. -/
structure BtcRatesRes where
  code : Int
  rates : Rates
  deriving DecidableEq, Repr

/-- Go: type BanksRes struct. -/
structure BanksRes where
  code : Int
  banks : List Bank
  deriving DecidableEq, Repr

/-- Go: type RecipientsRes struct. -/
structure RecipientsRes where
  code : Int
  recipients : List Recipient
  deriving DecidableEq, Repr

/-- Go: type TransfersRes struct. -/
structure TransfersRes where
  code : Int
  transfers : List Transfer
  deriving DecidableEq, Repr

/-- Go: type TransferRes struct. -/
structure TransferRes where
  code : Int
  transfer : Transfer
  deriving DecidableEq, Repr

/-- Go: type LimitsRes struct. -/
structure LimitsRes where
  code : Int
  limits : Limits
  deriving DecidableEq, Repr

/-- Go: type Method string with four constants. -/
inductive Method where
  | GET
  | POST
  | JSON_POST
  | DELETE
  deriving DecidableEq, Repr

/-- The body or query payload attached to a request (Go passes interface values). -/
inductive Params where
  | noParams
  | login (c : LoginCredentials)
  | tokenCreds (c : TokenCredentials)
  | create (t : CreateTransfer)
  deriving DecidableEq, Repr

/-- One outgoing HTTP request as the client builds it: method, full URL,
optional Authorization header value, and payload. -/
structure Request where
  method : Method
  url : String
  bearer : Option String
  params : Params
  deriving DecidableEq, Repr

/-- What one sling Receive call delivered back to callApi: a transport error
if any, the payload decoded into the success value, the payload decoded into
the ErrorRes value, and the HTTP status code.  callApi in client.go discards
the returned response object, so status is visible here only to let theorems
speak about it. -/
structure Exchange (α : Type) where
  status : Nat
  httpErr : Option String
  success : α
  failure : ErrorRes
  deriving DecidableEq, Repr

/-- Go: func NewWithToken(mode Mode, token Token). -/
def NewWithToken (mode : String) (token : Token) : Except String Client :=
  if mode = "sandbox" ∨ mode = "production" then
    Except.ok ⟨mode, token, Credentials.zero⟩
  else
    Except.error "Invalid mode"

/-- Go: func New(mode Mode) — delegates to NewWithToken with the zero token. -/
def New (mode : String) : Except String Client :=
  NewWithToken mode Token.zero

/-- Go: func NewFromConfig(mode Mode, config Config). -/
def NewFromConfig (mode : String) (config : Config) : Except String Client :=
  if mode = "sandbox" ∨ mode = "production" then
    Except.ok ⟨mode, config.token, config.credentials⟩
  else
    Except.error "Invalid mode"

/-- Go: func (c *Client) http() — the base URL the sling client is given:
sandbox for SANDBOX, production for everything else (default branch). -/
def Client.httpBase (c : Client) : String :=
  if c.mode = "sandbox" then sandboxBaseURL else baseURL

/-- The tail of callApi in client.go: req.Receive(res, errorRes) followed by
the error classification — transport error first, then a non-zero decoded
ErrorRes becomes the errorType ++ ": " ++ message error, else success.  The
status field of the exchange is not consulted (the Go code discards the
response object). -/
def receiveResult {α : Type} (ex : Exchange α) : Except String α :=
  match ex.httpErr with
  | some e => Except.error e
  | none =>
    if ex.failure = ErrorRes.zero then
      Except.ok ex.success
    else
      Except.error (ex.failure.errorType ++ ": " ++ ex.failure.message)

/-- The auth=false path of callApi in client.go, factored out so that
refreshToken and getToken (which call callApi with auth=false) can be
defined before the auth=true path that depends on them.  It builds one
request with no Authorization header and classifies the exchange. -/
def callApiNoAuth {α : Type} (method : Method) (path : String) (params : Params)
    (c : Client) (ex : Exchange α) : Except String α × List Request :=
  (receiveResult ex, [⟨method, c.httpBase ++ path, none, params⟩])

/-- Go: func refreshToken(c, credentials TokenCredentials) — POST oauth/tokens
with the token credentials, then stamp ValidUntil = ExpiresIn + now on the
received token.  The now argument stands for time.Now().Unix(). -/
def refreshToken (c : Client) (credentials : TokenCredentials)
    (ex : Exchange TokenRes) (now : Int) : Except String Token × List Request :=
  match callApiNoAuth Method.POST "oauth/tokens" (Params.tokenCreds credentials) c ex with
  | (Except.error e, tr) => (Except.error e, tr)
  | (Except.ok tokenRes, tr) =>
    (Except.ok { tokenRes.token with validUntil := tokenRes.token.expiresIn + now }, tr)

/-- Go: func (c *Client) RefreshToken() — builds TokenCredentials from the
stored credentials and refresh token, calls refreshToken, and stores the new
token only when there was no error. -/
def Client.RefreshToken (c : Client) (ex : Exchange TokenRes) (now : Int) :
    Except String Token × Client × List Request :=
  match refreshToken c ⟨c.credentials, c.token.refreshToken⟩ ex now with
  | (Except.error e, tr) => (Except.error e, c, tr)
  | (Except.ok token, tr) => (Except.ok token, { c with token := token }, tr)

/-- Go: func checkToken(c *Client) — fail on the zero token, refresh when
now >= ValidUntil - 30, otherwise proceed unchanged. -/
def checkToken (c : Client) (ex : Exchange TokenRes) (now : Int) :
    Option String × Client × List Request :=
  if c.token = Token.zero then
    (some "Missing auth token", c, [])
  else if now ≥ c.token.validUntil - 30 then
    match c.RefreshToken ex now with
    | (Except.error e, c2, tr) => (some e, c2, tr)
    | (Except.ok _, c2, tr) => (none, c2, tr)
  else
    (none, c, [])

/-- Result of one callApi invocation: the classified outcome, the client
state afterwards, and the requests issued in order. -/
structure ApiResult (α : Type) where
  result : Except String α
  client : Client
  trace : List Request
  deriving DecidableEq, Repr

/-- Go: func callApi(method, path, params, c, auth, res).  With auth=true it
runs checkToken (possibly refreshing the stored token), aborts on its error,
and otherwise issues the request with the Authorization header built from the
post-check access token; with auth=false it is callApiNoAuth.  refreshEx is
the exchange the token endpoint would answer with if a refresh fires; mainEx
answers the request itself. -/
def callApi {α : Type} (method : Method) (path : String) (params : Params)
    (c : Client) (auth : Bool) (now : Int) (refreshEx : Exchange TokenRes)
    (mainEx : Exchange α) : ApiResult α :=
  if auth then
    match checkToken c refreshEx now with
    | (some e, c2, tr) => ⟨Except.error e, c2, tr⟩
    | (none, c2, tr) =>
      ⟨receiveResult mainEx, c2,
        tr ++ [⟨method, c2.httpBase ++ path, some ("Bearer " ++ c2.token.accessToken), params⟩]⟩
  else
    let (r, tr) := callApiNoAuth method path params c mainEx
    ⟨r, c, tr⟩

/-- Go: func (c *Client) GetAllRates() — GET rates, unauthenticated. -/
def Client.GetAllRates (c : Client) (ex : Exchange AllRatesRes) :
    Except String AllRates × List Request :=
  match callApiNoAuth Method.GET "rates" Params.noParams c ex with
  | (Except.error e, tr) => (Except.error e, tr)
  | (Except.ok res, tr) => (Except.ok res.rates, tr)

/-- Go: func (c *Client) GetFxRates() — GET rates/fx, unauthenticated. -/
def Client.GetFxRates (c : Client) (ex : Exchange FxRatesRes) :
    Except String Rates × List Request :=
  match callApiNoAuth Method.GET "rates/fx" Params.noParams c ex with
  | (Except.error e, tr) => (Except.error e, tr)
  | (Except.ok res, tr) => (Except.ok res.rates, tr)

/-- Go: func (c *Client) GetBtcRates() — GET rates/btc, unauthenticated. -/
def Client.GetBtcRates (c : Client) (ex : Exchange BtcRatesRes) :
    Except String Rates × List Request :=
  match callApiNoAuth Method.GET "rates/btc" Params.noParams c ex with
  | (Except.error e, tr) => (Except.error e, tr)
  | (Except.ok res, tr) => (Except.ok res.rates, tr)

/-- Go: func (c *Client) GetBanks() — GET banks, unauthenticated. -/
def Client.GetBanks (c : Client) (ex : Exchange BanksRes) :
    Except String (List Bank) × List Request :=
  match callApiNoAuth Method.GET "banks" Params.noParams c ex with
  | (Except.error e, tr) => (Except.error e, tr)
  | (Except.ok res, tr) => (Except.ok res.banks, tr)

/-- Go: func (c *Client) GetRecipients() — GET recipients, authenticated. -/
def Client.GetRecipients (c : Client) (now : Int) (rex : Exchange TokenRes)
    (ex : Exchange RecipientsRes) :
    Except String (List Recipient) × Client × List Request :=
  let o := callApi Method.GET "recipients" Params.noParams c true now rex ex
  (o.result.map RecipientsRes.recipients, o.client, o.trace)

/-- Go: func (c *Client) GetTransfers() — GET transfers, authenticated. -/
def Client.GetTransfers (c : Client) (now : Int) (rex : Exchange TokenRes)
    (ex : Exchange TransfersRes) :
    Except String (List Transfer) × Client × List Request :=
  let o := callApi Method.GET "transfers" Params.noParams c true now rex ex
  (o.result.map TransfersRes.transfers, o.client, o.trace)

/-- Go: func (c *Client) GetTransfer(id) — GET transfers/id, authenticated. -/
def Client.GetTransfer (c : Client) (id : String) (now : Int)
    (rex : Exchange TokenRes) (ex : Exchange TransferRes) :
    Except String Transfer × Client × List Request :=
  let o := callApi Method.GET ("transfers/" ++ id) Params.noParams c true now rex ex
  (o.result.map TransferRes.transfer, o.client, o.trace)

/-- Go: func (c *Client) CreateTransfer(transfer) — JSON_POST transfers,
authenticated. -/
def Client.CreateTransfer (c : Client) (transfer : CreateTransfer) (now : Int)
    (rex : Exchange TokenRes) (ex : Exchange TransferRes) :
    Except String Transfer × Client × List Request :=
  let o := callApi Method.JSON_POST "transfers" (Params.create transfer) c true now rex ex
  (o.result.map TransferRes.transfer, o.client, o.trace)

/-- Go: func (c *Client) CancelTransfer(id) — DELETE transfers/id,
authenticated. -/
def Client.CancelTransfer (c : Client) (id : String) (now : Int)
    (rex : Exchange TokenRes) (ex : Exchange TransferRes) :
    Except String Transfer × Client × List Request :=
  let o := callApi Method.DELETE ("transfers/" ++ id) Params.noParams c true now rex ex
  (o.result.map TransferRes.transfer, o.client, o.trace)

/-- Go: func (c *Client) GetLimits() — GET users/limits, authenticated. -/
def Client.GetLimits (c : Client) (now : Int) (rex : Exchange TokenRes)
    (ex : Exchange LimitsRes) :
    Except String Limits × Client × List Request :=
  let o := callApi Method.GET "users/limits" Params.noParams c true now rex ex
  (o.result.map LimitsRes.limits, o.client, o.trace)

/-- Go: func getToken(c, credentials LoginCredentials) — POST oauth/tokens
with the login credentials, then stamp ValidUntil = ExpiresIn + now. -/
def getToken (c : Client) (credentials : LoginCredentials)
    (ex : Exchange TokenRes) (now : Int) : Except String Token × List Request :=
  match callApiNoAuth Method.POST "oauth/tokens" (Params.login credentials) c ex with
  | (Except.error e, tr) => (Except.error e, tr)
  | (Except.ok tokenRes, tr) =>
    (Except.ok { tokenRes.token with validUntil := tokenRes.token.expiresIn + now }, tr)

/-- Go: func (c *Client) Authenticate(credentials) — on success stores the
derived refresh Credentials and the new token; on failure leaves the client
untouched. -/
def Client.Authenticate (c : Client) (credentials : LoginCredentials)
    (ex : Exchange TokenRes) (now : Int) :
    Except String Token × Client × List Request :=
  match getToken c credentials ex now with
  | (Except.error e, tr) => (Except.error e, c, tr)
  | (Except.ok token, tr) =>
    (Except.ok token,
      { c with
        credentials :=
          ⟨credentials.credentials.clientId, credentials.credentials.clientSecret,
            "refresh_token"⟩,
        token := token },
      tr)

/-- Go: func (c *Client) TokenAuthenticate(credentials, token) — the body is
just return c.Authenticate(credentials); the token argument is unused. -/
def Client.TokenAuthenticate (c : Client) (credentials : LoginCredentials)
    (_token : Token) (ex : Exchange TokenRes) (now : Int) :
    Except String Token × Client × List Request :=
  c.Authenticate credentials ex now

/-- One public client operation together with the environment it observes:
its call time and the exchanges the network answers with.  Used to quantify
over arbitrary operation sequences. -/
inductive Op where
  | getAllRates (ex : Exchange AllRatesRes)
  | getFxRates (ex : Exchange FxRatesRes)
  | getBtcRates (ex : Exchange BtcRatesRes)
  | getBanks (ex : Exchange BanksRes)
  | getRecipients (now : Int) (rex : Exchange TokenRes) (ex : Exchange RecipientsRes)
  | getTransfers (now : Int) (rex : Exchange TokenRes) (ex : Exchange TransfersRes)
  | getTransfer (id : String) (now : Int) (rex : Exchange TokenRes) (ex : Exchange TransferRes)
  | createTransfer (t : CreateTransfer) (now : Int) (rex : Exchange TokenRes) (ex : Exchange TransferRes)
  | cancelTransfer (id : String) (now : Int) (rex : Exchange TokenRes) (ex : Exchange TransferRes)
  | getLimits (now : Int) (rex : Exchange TokenRes) (ex : Exchange LimitsRes)
  | authenticate (credentials : LoginCredentials) (ex : Exchange TokenRes) (now : Int)
  | tokenAuthenticate (credentials : LoginCredentials) (token : Token) (ex : Exchange TokenRes) (now : Int)
  | refresh (ex : Exchange TokenRes) (now : Int)

/-- The client state after running one operation. -/
def applyOp (c : Client) : Op → Client
  | Op.getAllRates _ => c
  | Op.getFxRates _ => c
  | Op.getBtcRates _ => c
  | Op.getBanks _ => c
  | Op.getRecipients now rex ex => (c.GetRecipients now rex ex).2.1
  | Op.getTransfers now rex ex => (c.GetTransfers now rex ex).2.1
  | Op.getTransfer id now rex ex => (c.GetTransfer id now rex ex).2.1
  | Op.createTransfer t now rex ex => (c.CreateTransfer t now rex ex).2.1
  | Op.cancelTransfer id now rex ex => (c.CancelTransfer id now rex ex).2.1
  | Op.getLimits now rex ex => (c.GetLimits now rex ex).2.1
  | Op.authenticate credentials ex now => (c.Authenticate credentials ex now).2.1
  | Op.tokenAuthenticate credentials token ex now =>
    (c.TokenAuthenticate credentials token ex now).2.1
  | Op.refresh ex now => (c.RefreshToken ex now).2.1

/-- The client state after running a sequence of operations. -/
def runOps (c : Client) (ops : List Op) : Client :=
  ops.foldl applyOp c

/-- Whether an exchange classifies as a success. -/
def exOk {α : Type} (ex : Exchange α) : Bool :=
  match receiveResult ex with
  | Except.ok _ => true
  | Except.error _ => false

/-- The (time, expires_in) pair of a successful token-endpoint exchange. -/
def grantOf (ex : Exchange TokenRes) (now : Int) : Option (Int × Int) :=
  match receiveResult ex with
  | Except.ok tres => some (now, tres.token.expiresIn)
  | Except.error _ => none

/-- The token grant, if any, produced by the checkToken pre-call refresh of
an authenticated operation run in state c at time now. -/
def authGrant (c : Client) (now : Int) (rex : Exchange TokenRes) : Option (Int × Int) :=
  if c.token = Token.zero then none
  else if now ≥ c.token.validUntil - 30 then grantOf rex now
  else none

/-- The token grant, if any, produced by one operation run in state c:
a successful authenticate or refresh, explicit or fired by checkToken. -/
def stepGrant (c : Client) : Op → Option (Int × Int)
  | Op.getAllRates _ => none
  | Op.getFxRates _ => none
  | Op.getBtcRates _ => none
  | Op.getBanks _ => none
  | Op.getRecipients now rex _ => authGrant c now rex
  | Op.getTransfers now rex _ => authGrant c now rex
  | Op.getTransfer _ now rex _ => authGrant c now rex
  | Op.createTransfer _ now rex _ => authGrant c now rex
  | Op.cancelTransfer _ now rex _ => authGrant c now rex
  | Op.getLimits now rex _ => authGrant c now rex
  | Op.authenticate _ ex now => grantOf ex now
  | Op.tokenAuthenticate _ _ ex now => grantOf ex now
  | Op.refresh ex now => grantOf ex now

/-- The (time, expires_in) of the most recent successful authenticate or
refresh call in a run, threading the client state to decide whether the
implicit pre-call refreshes fired. -/
def lastGrant (c : Client) : List Op → Option (Int × Int)
  | [] => none
  | op :: ops =>
    match lastGrant (applyOp c op) ops with
    | some g => some g
    | none => stepGrant c op

/-- Whether an operation is a successful password-grant authentication. -/
def isAuthSuccess : Op → Bool
  | Op.authenticate _ ex _ => exOk ex
  | Op.tokenAuthenticate _ _ ex _ => exOk ex
  | _ => false

/-- Whether the run contains a successful password-grant authentication. -/
def hadAuthSuccess (ops : List Op) : Bool :=
  ops.any isAuthSuccess

/-- A client as produced by one of the three constructors. -/
def EntryClient (c : Client) : Prop :=
  (∃ mode, New mode = Except.ok c) ∨
  (∃ mode token, NewWithToken mode token = Except.ok c) ∨
  (∃ mode config, NewFromConfig mode config = Except.ok c)

/-- The token stored after a successful token-endpoint call answered by tres
at time now: the received token with ValidUntil = ExpiresIn + now. -/
def Token.fresh (tres : TokenRes) (now : Int) : Token :=
  { tres.token with validUntil := tres.token.expiresIn + now }

/-- The refresh request RefreshToken sends: POST oauth/tokens carrying the
stored credentials and the stored refresh token. -/
def refreshRequest (c : Client) : Request :=
  ⟨Method.POST, c.httpBase ++ "oauth/tokens", none,
    Params.tokenCreds ⟨c.credentials, c.token.refreshToken⟩⟩

/-- The password-grant request getToken sends. -/
def authRequest (c : Client) (credentials : LoginCredentials) : Request :=
  ⟨Method.POST, c.httpBase ++ "oauth/tokens", none, Params.login credentials⟩

/-- The zero value of Limits. -/
def Limits.zero : Limits :=
  ⟨⟨⟨0, 0⟩, ⟨0, 0⟩⟩, ⟨"", ⟨"", "", ""⟩, ⟨"", "", ""⟩⟩, ""⟩

/-- The zero value of LimitsRes. -/
def LimitsRes.zero : LimitsRes := ⟨0, Limits.zero⟩

/-- Concrete refresh-capable credentials, used to instantiate theorems. -/
def sampleCreds : Credentials := ⟨"client-1", "secret-1", "refresh_token"⟩

/-- Concrete password-grant login credentials. -/
def sampleLogin : LoginCredentials := ⟨⟨"client-1", "secret-1", "password"⟩, "user", "pass"⟩

/-- A stored token that is about to expire at time 100. -/
def sampleToken : Token := ⟨"Bearer", "oldAccess", "oldRefresh", 3600, 100⟩

/-- An authenticated client whose token expires at time 100. -/
def sampleClient : Client := ⟨"sandbox", sampleToken, sampleCreds⟩

/-- A stored token that stays valid far into the future. -/
def freshToken : Token := ⟨"Bearer", "acc", "ref", 3600, 1000000⟩

/-- An authenticated client whose token is still fresh. -/
def freshClient : Client := ⟨"sandbox", freshToken, sampleCreds⟩

/-- An unauthenticated client with no credentials. -/
def zeroClient : Client := ⟨"sandbox", Token.zero, Credentials.zero⟩

/-- A client built from a config carrying credentials but no token. -/
def configClient : Client := ⟨"sandbox", Token.zero, sampleCreds⟩

/-- The token payload a successful token-endpoint call answers with. -/
def newTokenRes : TokenRes := ⟨200, ⟨"Bearer", "newAccess", "newRefresh", 3600, 0⟩⟩

/-- A successful token-endpoint exchange. -/
def okTokenEx : Exchange TokenRes := ⟨200, none, newTokenRes, ErrorRes.zero⟩

/-- A failed token-endpoint exchange carrying an Unauthorized error object. -/
def errTokenEx : Exchange TokenRes :=
  ⟨401, none, ⟨0, Token.zero⟩, ⟨401, "Invalid token.", "Unauthorized"⟩⟩

/-- A successful limits exchange with a zero payload. -/
def okLimitsEx : Exchange LimitsRes := ⟨200, none, LimitsRes.zero, ErrorRes.zero⟩

/-- A limits exchange carrying an Unauthorized error object. -/
def errLimitsEx : Exchange LimitsRes :=
  ⟨401, none, LimitsRes.zero, ⟨401, "Invalid token.", "Unauthorized"⟩⟩

/-- An HTTP 500 limits exchange whose body decoded to nothing at all. -/
def status500LimitsEx : Exchange LimitsRes := ⟨500, none, LimitsRes.zero, ErrorRes.zero⟩

/-- A successful recipients exchange with an empty list. -/
def emptyRecipientsEx : Exchange RecipientsRes := ⟨200, none, ⟨200, []⟩, ErrorRes.zero⟩

/-- A successful transfers exchange with an empty list. -/
def emptyTransfersEx : Exchange TransfersRes := ⟨200, none, ⟨200, []⟩, ErrorRes.zero⟩

/-- The zero value of Transfer. -/
def Transfer.zero : Transfer :=
  ⟨"", ⟨"", ""⟩, "", "", "", "", "", "", ⟨"", "", 0⟩,
    ⟨⟨0, "", "", ⟨⟨0, "", "", "", ""⟩, "", ""⟩⟩, "", ""⟩⟩

/-- A successful transfer exchange with a zero payload. -/
def zeroTransferEx : Exchange TransferRes := ⟨200, none, ⟨200, Transfer.zero⟩, ErrorRes.zero⟩

/-- A concrete transfer-creation payload. -/
def sampleCreate : CreateTransfer := ⟨"10", "KRW", 1, "memo", "bank"⟩

/-- A limits exchange that failed at the transport level. -/
def transportFailEx : Exchange LimitsRes :=
  ⟨0, some "connection refused", LimitsRes.zero, ErrorRes.zero⟩

/-- A successful rates exchange with an empty payload. -/
def okAllRatesEx : Exchange AllRatesRes := ⟨200, none, ⟨200, ⟨[], []⟩⟩, ErrorRes.zero⟩

theorem callApi_auth_missing {α : Type} (method : Method) (path : String)
    (params : Params) (c : Client) (now : Int) (rex : Exchange TokenRes)
    (mex : Exchange α) (h : c.token = Token.zero) :
    callApi method path params c true now rex mex =
      ⟨Except.error "Missing auth token", c, []⟩ := by
  simp [callApi, checkToken, h]

theorem callApi_auth_fresh {α : Type} (method : Method) (path : String)
    (params : Params) (c : Client) (now : Int) (rex : Exchange TokenRes)
    (mex : Exchange α) (h1 : c.token ≠ Token.zero)
    (h2 : ¬ now ≥ c.token.validUntil - 30) :
    callApi method path params c true now rex mex =
      ⟨receiveResult mex, c,
        [⟨method, c.httpBase ++ path, some ("Bearer " ++ c.token.accessToken), params⟩]⟩ := by
  simp [callApi, checkToken, h1, h2]

theorem callApi_auth_refresh_ok {α : Type} (method : Method) (path : String)
    (params : Params) (c : Client) (now : Int) (rex : Exchange TokenRes)
    (mex : Exchange α) (tres : TokenRes) (h1 : c.token ≠ Token.zero)
    (h2 : now ≥ c.token.validUntil - 30)
    (h3 : receiveResult rex = Except.ok tres) :
    callApi method path params c true now rex mex =
      ⟨receiveResult mex, { c with token := Token.fresh tres now },
        [refreshRequest c,
          ⟨method, c.httpBase ++ path,
            some ("Bearer " ++ tres.token.accessToken), params⟩]⟩ := by
  simp [callApi, checkToken, Client.RefreshToken, refreshToken, callApiNoAuth,
    h1, h2, h3, Token.fresh, refreshRequest, Client.httpBase]

theorem callApi_auth_refresh_err {α : Type} (method : Method) (path : String)
    (params : Params) (c : Client) (now : Int) (rex : Exchange TokenRes)
    (mex : Exchange α) (e : String) (h1 : c.token ≠ Token.zero)
    (h2 : now ≥ c.token.validUntil - 30)
    (h3 : receiveResult rex = Except.error e) :
    callApi method path params c true now rex mex =
      ⟨Except.error e, c, [refreshRequest c]⟩ := by
  simp [callApi, checkToken, Client.RefreshToken, refreshToken, callApiNoAuth,
    h1, h2, h3, refreshRequest]

theorem RefreshToken_ok (c : Client) (ex : Exchange TokenRes) (now : Int)
    (tres : TokenRes) (h : receiveResult ex = Except.ok tres) :
    c.RefreshToken ex now =
      (Except.ok (Token.fresh tres now), { c with token := Token.fresh tres now },
        [refreshRequest c]) := by
  simp [Client.RefreshToken, refreshToken, callApiNoAuth, h, Token.fresh, refreshRequest]

theorem RefreshToken_err (c : Client) (ex : Exchange TokenRes) (now : Int)
    (e : String) (h : receiveResult ex = Except.error e) :
    c.RefreshToken ex now = (Except.error e, c, [refreshRequest c]) := by
  simp [Client.RefreshToken, refreshToken, callApiNoAuth, h, refreshRequest]

theorem Authenticate_ok (c : Client) (credentials : LoginCredentials)
    (ex : Exchange TokenRes) (now : Int) (tres : TokenRes)
    (h : receiveResult ex = Except.ok tres) :
    c.Authenticate credentials ex now =
      (Except.ok (Token.fresh tres now),
        { c with
          token := Token.fresh tres now,
          credentials :=
            ⟨credentials.credentials.clientId, credentials.credentials.clientSecret,
              "refresh_token"⟩ },
        [authRequest c credentials]) := by
  simp [Client.Authenticate, getToken, callApiNoAuth, h, Token.fresh, authRequest]

theorem Authenticate_err (c : Client) (credentials : LoginCredentials)
    (ex : Exchange TokenRes) (now : Int) (e : String)
    (h : receiveResult ex = Except.error e) :
    c.Authenticate credentials ex now =
      (Except.error e, c, [authRequest c credentials]) := by
  simp [Client.Authenticate, getToken, callApiNoAuth, h, authRequest]

theorem callApi_client_shape {α : Type} (method : Method) (path : String)
    (params : Params) (c : Client) (auth : Bool) (now : Int)
    (rex : Exchange TokenRes) (mex : Exchange α) :
    ∃ t, (callApi method path params c auth now rex mex).client = { c with token := t } := by
  cases auth with
  | false => exact ⟨c.token, by simp [callApi, callApiNoAuth]⟩
  | true =>
    by_cases h1 : c.token = Token.zero
    · exact ⟨c.token, by rw [callApi_auth_missing _ _ _ _ _ _ _ h1]⟩
    · by_cases h2 : now ≥ c.token.validUntil - 30
      · cases h3 : receiveResult rex with
        | ok tres =>
          exact ⟨Token.fresh tres now,
            by rw [callApi_auth_refresh_ok _ _ _ _ _ _ _ _ h1 h2 h3]⟩
        | error e =>
          exact ⟨c.token, by rw [callApi_auth_refresh_err _ _ _ _ _ _ _ _ h1 h2 h3]⟩
      · exact ⟨c.token, by rw [callApi_auth_fresh _ _ _ _ _ _ _ h1 h2]⟩

theorem callApi_token_grant {α : Type} (method : Method) (path : String)
    (params : Params) (c : Client) (now : Int) (rex : Exchange TokenRes)
    (mex : Exchange α) :
    (match authGrant c now rex with
     | some g => (callApi method path params c true now rex mex).client.token.validUntil = g.2 + g.1
     | none => (callApi method path params c true now rex mex).client.token = c.token) := by
  unfold authGrant grantOf
  by_cases h1 : c.token = Token.zero
  · simp [h1, callApi_auth_missing _ _ _ _ _ _ _ h1]
  · by_cases h2 : now ≥ c.token.validUntil - 30
    · cases h3 : receiveResult rex with
      | ok tres =>
        simp [h1, h2, h3, callApi_auth_refresh_ok _ _ _ _ _ _ _ _ h1 h2 h3, Token.fresh]
      | error e =>
        simp [h1, h2, h3, callApi_auth_refresh_err _ _ _ _ _ _ _ _ h1 h2 h3]
    · simp [h1, h2, callApi_auth_fresh _ _ _ _ _ _ _ h1 h2]

theorem applyOp_token (c : Client) (op : Op) :
    (match stepGrant c op with
     | some g => (applyOp c op).token.validUntil = g.2 + g.1
     | none => (applyOp c op).token = c.token) := by
  cases op with
  | getAllRates ex => simp [stepGrant, applyOp]
  | getFxRates ex => simp [stepGrant, applyOp]
  | getBtcRates ex => simp [stepGrant, applyOp]
  | getBanks ex => simp [stepGrant, applyOp]
  | getRecipients now rex ex =>
    simpa [stepGrant, applyOp, Client.GetRecipients] using
      callApi_token_grant Method.GET "recipients" Params.noParams c now rex ex
  | getTransfers now rex ex =>
    simpa [stepGrant, applyOp, Client.GetTransfers] using
      callApi_token_grant Method.GET "transfers" Params.noParams c now rex ex
  | getTransfer id now rex ex =>
    simpa [stepGrant, applyOp, Client.GetTransfer] using
      callApi_token_grant Method.GET ("transfers/" ++ id) Params.noParams c now rex ex
  | createTransfer t now rex ex =>
    simpa [stepGrant, applyOp, Client.CreateTransfer] using
      callApi_token_grant Method.JSON_POST "transfers" (Params.create t) c now rex ex
  | cancelTransfer id now rex ex =>
    simpa [stepGrant, applyOp, Client.CancelTransfer] using
      callApi_token_grant Method.DELETE ("transfers/" ++ id) Params.noParams c now rex ex
  | getLimits now rex ex =>
    simpa [stepGrant, applyOp, Client.GetLimits] using
      callApi_token_grant Method.GET "users/limits" Params.noParams c now rex ex
  | authenticate credentials ex now =>
    cases h : receiveResult ex with
    | ok tres =>
      simp [stepGrant, applyOp, grantOf, h, Authenticate_ok c credentials ex now tres h,
        Token.fresh]
    | error e =>
      simp [stepGrant, applyOp, grantOf, h, Authenticate_err c credentials ex now e h]
  | tokenAuthenticate credentials token ex now =>
    cases h : receiveResult ex with
    | ok tres =>
      simp [stepGrant, applyOp, grantOf, h, Client.TokenAuthenticate,
        Authenticate_ok c credentials ex now tres h, Token.fresh]
    | error e =>
      simp [stepGrant, applyOp, grantOf, h, Client.TokenAuthenticate,
        Authenticate_err c credentials ex now e h]
  | refresh ex now =>
    cases h : receiveResult ex with
    | ok tres =>
      simp [stepGrant, applyOp, grantOf, h, RefreshToken_ok c ex now tres h, Token.fresh]
    | error e =>
      simp [stepGrant, applyOp, grantOf, h, RefreshToken_err c ex now e h]

theorem applyOp_credentials (c : Client) (op : Op) :
    (applyOp c op).credentials = c.credentials ∨ isAuthSuccess op = true := by
  cases op with
  | getAllRates ex => left; rfl
  | getFxRates ex => left; rfl
  | getBtcRates ex => left; rfl
  | getBanks ex => left; rfl
  | getRecipients now rex ex =>
    left
    obtain ⟨t, ht⟩ := callApi_client_shape Method.GET "recipients" Params.noParams c true now rex ex
    simp [applyOp, Client.GetRecipients, ht]
  | getTransfers now rex ex =>
    left
    obtain ⟨t, ht⟩ := callApi_client_shape Method.GET "transfers" Params.noParams c true now rex ex
    simp [applyOp, Client.GetTransfers, ht]
  | getTransfer id now rex ex =>
    left
    obtain ⟨t, ht⟩ :=
      callApi_client_shape Method.GET ("transfers/" ++ id) Params.noParams c true now rex ex
    simp [applyOp, Client.GetTransfer, ht]
  | createTransfer t now rex ex =>
    left
    obtain ⟨t2, ht⟩ :=
      callApi_client_shape Method.JSON_POST "transfers" (Params.create t) c true now rex ex
    simp [applyOp, Client.CreateTransfer, ht]
  | cancelTransfer id now rex ex =>
    left
    obtain ⟨t, ht⟩ :=
      callApi_client_shape Method.DELETE ("transfers/" ++ id) Params.noParams c true now rex ex
    simp [applyOp, Client.CancelTransfer, ht]
  | getLimits now rex ex =>
    left
    obtain ⟨t, ht⟩ :=
      callApi_client_shape Method.GET "users/limits" Params.noParams c true now rex ex
    simp [applyOp, Client.GetLimits, ht]
  | authenticate credentials ex now =>
    cases h : receiveResult ex with
    | ok tres => right; simp [isAuthSuccess, exOk, h]
    | error e => left; simp [applyOp, Authenticate_err c credentials ex now e h]
  | tokenAuthenticate credentials token ex now =>
    cases h : receiveResult ex with
    | ok tres => right; simp [isAuthSuccess, exOk, h]
    | error e =>
      left
      simp [applyOp, Client.TokenAuthenticate, Authenticate_err c credentials ex now e h]
  | refresh ex now =>
    cases h : receiveResult ex with
    | ok tres => left; simp [applyOp, RefreshToken_ok c ex now tres h]
    | error e => left; simp [applyOp, RefreshToken_err c ex now e h]

theorem runOps_token_provenance (ops : List Op) (c0 : Client) :
    (match lastGrant c0 ops with
     | some g => (runOps c0 ops).token.validUntil = g.2 + g.1
     | none => (runOps c0 ops).token = c0.token) := by
  induction ops generalizing c0 with
  | nil => simp [lastGrant, runOps]
  | cons op ops ih =>
    have hstep := applyOp_token c0 op
    have htail := ih (applyOp c0 op)
    have hrun : runOps c0 (op :: ops) = runOps (applyOp c0 op) ops := rfl
    rw [hrun]
    show (match lastGrant c0 (op :: ops) with
      | some g => (runOps (applyOp c0 op) ops).token.validUntil = g.2 + g.1
      | none => (runOps (applyOp c0 op) ops).token = c0.token)
    rw [lastGrant]
    cases htg : lastGrant (applyOp c0 op) ops with
    | some g =>
      rw [htg] at htail
      simpa using htail
    | none =>
      rw [htg] at htail
      simp only
      cases hsg : stepGrant c0 op with
      | some g =>
        rw [hsg] at hstep
        simpa [htail] using hstep
      | none =>
        rw [hsg] at hstep
        simpa [htail] using hstep

theorem runOps_credentials_provenance (ops : List Op) (c0 : Client) :
    (runOps c0 ops).credentials = c0.credentials ∨ hadAuthSuccess ops = true := by
  induction ops generalizing c0 with
  | nil => left; rfl
  | cons op ops ih =>
    have hrun : runOps c0 (op :: ops) = runOps (applyOp c0 op) ops := rfl
    rcases ih (applyOp c0 op) with h | h
    · rcases applyOp_credentials c0 op with h2 | h2
      · left; rw [hrun, h, h2]
      · right; simp [hadAuthSuccess, h2]
    · right; simp [hadAuthSuccess, List.any_cons]
      right
      simpa [hadAuthSuccess] using h

/-- C1: for every client whose stored token is non-zero and whose valid_until
is within 30 seconds of the current time (now >= valid_until - 30), every
authenticated operation (GetRecipients, GetTransfers, GetTransfer,
CreateTransfer, CancelTransfer, GetLimits) performs exactly one synchronous
token refresh before issuing the original request (the trace is exactly the
refresh request followed by the original request), attaches the post-refresh
access token as the bearer credential, and — the refresh having answered with
a different access token — the stored token afterwards differs from the
pre-refresh token. -/
theorem C1_expiring_token_single_refresh (c : Client) (now : Int)
    (rex : Exchange TokenRes) (tres : TokenRes)
    (exR : Exchange RecipientsRes) (exT : Exchange TransfersRes)
    (id1 id2 : String) (exG exCa : Exchange TransferRes)
    (t : CreateTransfer) (exCr : Exchange TransferRes) (exL : Exchange LimitsRes)
    (h1 : c.token ≠ Token.zero) (h2 : now ≥ c.token.validUntil - 30)
    (h3 : receiveResult rex = Except.ok tres)
    (h4 : tres.token.accessToken ≠ c.token.accessToken) :
    ((c.GetRecipients now rex exR).2.2 =
      [refreshRequest c,
        ⟨Method.GET, c.httpBase ++ "recipients",
          some ("Bearer " ++ (Token.fresh tres now).accessToken), Params.noParams⟩] ∧
      (c.GetRecipients now rex exR).2.1.token = Token.fresh tres now) ∧
    ((c.GetTransfers now rex exT).2.2 =
      [refreshRequest c,
        ⟨Method.GET, c.httpBase ++ "transfers",
          some ("Bearer " ++ (Token.fresh tres now).accessToken), Params.noParams⟩] ∧
      (c.GetTransfers now rex exT).2.1.token = Token.fresh tres now) ∧
    ((c.GetTransfer id1 now rex exG).2.2 =
      [refreshRequest c,
        ⟨Method.GET, c.httpBase ++ ("transfers/" ++ id1),
          some ("Bearer " ++ (Token.fresh tres now).accessToken), Params.noParams⟩] ∧
      (c.GetTransfer id1 now rex exG).2.1.token = Token.fresh tres now) ∧
    ((c.CreateTransfer t now rex exCr).2.2 =
      [refreshRequest c,
        ⟨Method.JSON_POST, c.httpBase ++ "transfers",
          some ("Bearer " ++ (Token.fresh tres now).accessToken), Params.create t⟩] ∧
      (c.CreateTransfer t now rex exCr).2.1.token = Token.fresh tres now) ∧
    ((c.CancelTransfer id2 now rex exCa).2.2 =
      [refreshRequest c,
        ⟨Method.DELETE, c.httpBase ++ ("transfers/" ++ id2),
          some ("Bearer " ++ (Token.fresh tres now).accessToken), Params.noParams⟩] ∧
      (c.CancelTransfer id2 now rex exCa).2.1.token = Token.fresh tres now) ∧
    ((c.GetLimits now rex exL).2.2 =
      [refreshRequest c,
        ⟨Method.GET, c.httpBase ++ "users/limits",
          some ("Bearer " ++ (Token.fresh tres now).accessToken), Params.noParams⟩] ∧
      (c.GetLimits now rex exL).2.1.token = Token.fresh tres now) ∧
    Token.fresh tres now ≠ c.token := by
  refine ⟨?_, ?_, ?_, ?_, ?_, ?_, ?_⟩
  · have h := callApi_auth_refresh_ok Method.GET "recipients" Params.noParams c now rex exR tres h1 h2 h3
    constructor <;> simp [Client.GetRecipients, h, Token.fresh]
  · have h := callApi_auth_refresh_ok Method.GET "transfers" Params.noParams c now rex exT tres h1 h2 h3
    constructor <;> simp [Client.GetTransfers, h, Token.fresh]
  · have h := callApi_auth_refresh_ok Method.GET ("transfers/" ++ id1) Params.noParams c now rex exG tres h1 h2 h3
    constructor <;> simp [Client.GetTransfer, h, Token.fresh]
  · have h := callApi_auth_refresh_ok Method.JSON_POST "transfers" (Params.create t) c now rex exCr tres h1 h2 h3
    constructor <;> simp [Client.CreateTransfer, h, Token.fresh]
  · have h := callApi_auth_refresh_ok Method.DELETE ("transfers/" ++ id2) Params.noParams c now rex exCa tres h1 h2 h3
    constructor <;> simp [Client.CancelTransfer, h, Token.fresh]
  · have h := callApi_auth_refresh_ok Method.GET "users/limits" Params.noParams c now rex exL tres h1 h2 h3
    constructor <;> simp [Client.GetLimits, h, Token.fresh]
  · intro heq
    apply h4
    have h5 := congrArg Token.accessToken heq
    simpa [Token.fresh] using h5

/-- Witness for C1 at concrete inputs: the client with token expiring at 100,
called at time 100, with the token endpoint answering a new access token. -/
theorem C1_witness :
    (sampleClient.token ≠ Token.zero ∧ (100 : Int) ≥ sampleClient.token.validUntil - 30 ∧
      receiveResult okTokenEx = Except.ok newTokenRes ∧
      newTokenRes.token.accessToken ≠ sampleClient.token.accessToken) ∧
    ((sampleClient.GetLimits 100 okTokenEx okLimitsEx).2.2 =
      [refreshRequest sampleClient,
        ⟨Method.GET, sampleClient.httpBase ++ "users/limits",
          some ("Bearer " ++ (Token.fresh newTokenRes 100).accessToken), Params.noParams⟩] ∧
      (sampleClient.GetLimits 100 okTokenEx okLimitsEx).2.1.token =
        Token.fresh newTokenRes 100) ∧
    Token.fresh newTokenRes 100 ≠ sampleClient.token := by
  have h := C1_expiring_token_single_refresh sampleClient 100 okTokenEx newTokenRes
    emptyRecipientsEx emptyTransfersEx "t1" "t2" zeroTransferEx zeroTransferEx
    sampleCreate zeroTransferEx okLimitsEx
    (by decide) (by decide) (by decide) (by decide)
  exact ⟨⟨by decide, by decide, by decide, by decide⟩,
    h.2.2.2.2.2.1, h.2.2.2.2.2.2⟩

/-- C2: every authenticated operation invoked on a client whose stored token
is the zero value and whose stored credentials are the zero value fails
immediately with the "Missing auth token" precondition error, with an empty
request trace (no HTTP request issued) and an unchanged client. -/
theorem C2_zero_token_precondition (c : Client) (now : Int) (rex : Exchange TokenRes)
    (exR : Exchange RecipientsRes) (exT : Exchange TransfersRes)
    (id1 id2 : String) (exG exCa : Exchange TransferRes)
    (t : CreateTransfer) (exCr : Exchange TransferRes) (exL : Exchange LimitsRes)
    (h : c.token = Token.zero) (_hcred : c.credentials = Credentials.zero) :
    c.GetRecipients now rex exR = (Except.error "Missing auth token", c, []) ∧
    c.GetTransfers now rex exT = (Except.error "Missing auth token", c, []) ∧
    c.GetTransfer id1 now rex exG = (Except.error "Missing auth token", c, []) ∧
    c.CreateTransfer t now rex exCr = (Except.error "Missing auth token", c, []) ∧
    c.CancelTransfer id2 now rex exCa = (Except.error "Missing auth token", c, []) ∧
    c.GetLimits now rex exL = (Except.error "Missing auth token", c, []) := by
  refine ⟨?_, ?_, ?_, ?_, ?_, ?_⟩ <;>
    simp [Client.GetRecipients, Client.GetTransfers, Client.GetTransfer,
      Client.CreateTransfer, Client.CancelTransfer, Client.GetLimits,
      callApi_auth_missing _ _ _ _ _ _ _ h, Except.map]

/-- Witness for C2: the zero-token zero-credentials client rejects all six
authenticated operations without issuing a request. -/
theorem C2_witness :
    (zeroClient.token = Token.zero ∧ zeroClient.credentials = Credentials.zero) ∧
    zeroClient.GetRecipients 0 okTokenEx emptyRecipientsEx =
      (Except.error "Missing auth token", zeroClient, []) ∧
    zeroClient.GetTransfers 0 okTokenEx emptyTransfersEx =
      (Except.error "Missing auth token", zeroClient, []) ∧
    zeroClient.GetTransfer "t1" 0 okTokenEx zeroTransferEx =
      (Except.error "Missing auth token", zeroClient, []) ∧
    zeroClient.CreateTransfer sampleCreate 0 okTokenEx zeroTransferEx =
      (Except.error "Missing auth token", zeroClient, []) ∧
    zeroClient.CancelTransfer "t2" 0 okTokenEx zeroTransferEx =
      (Except.error "Missing auth token", zeroClient, []) ∧
    zeroClient.GetLimits 0 okTokenEx okLimitsEx =
      (Except.error "Missing auth token", zeroClient, []) := by
  have h := C2_zero_token_precondition zeroClient 0 okTokenEx emptyRecipientsEx
    emptyTransfersEx "t1" "t2" zeroTransferEx zeroTransferEx sampleCreate
    zeroTransferEx okLimitsEx (by decide) (by decide)
  exact ⟨⟨by decide, by decide⟩, h.1, h.2.1, h.2.2.1, h.2.2.2.1, h.2.2.2.2.1, h.2.2.2.2.2⟩

/-- C3: RefreshToken on success replaces the stored token in place with the
newly received token carrying a freshly computed valid_until and returns that
token; on failure the stored token is left exactly unchanged, the error is
surfaced to the caller of the original authenticated operation, the in-flight
call does not proceed (the trace holds only the single refresh request, so no
retry is attempted either). -/
theorem C3_refresh_replaces_or_aborts {α : Type} (c : Client) (now : Int)
    (exS exF : Exchange TokenRes) (tres : TokenRes) (e : String)
    (method : Method) (path : String) (params : Params) (mex : Exchange α)
    (hS : receiveResult exS = Except.ok tres)
    (hF : receiveResult exF = Except.error e)
    (h1 : c.token ≠ Token.zero) (h2 : now ≥ c.token.validUntil - 30) :
    c.RefreshToken exS now =
      (Except.ok (Token.fresh tres now), { c with token := Token.fresh tres now },
        [refreshRequest c]) ∧
    c.RefreshToken exF now = (Except.error e, c, [refreshRequest c]) ∧
    callApi method path params c true now exF mex =
      ⟨Except.error e, c, [refreshRequest c]⟩ :=
  ⟨RefreshToken_ok c exS now tres hS, RefreshToken_err c exF now e hF,
    callApi_auth_refresh_err method path params c now exF mex e h1 h2 hF⟩

/-- Witness for C3 at concrete inputs. -/
theorem C3_witness :
    sampleClient.RefreshToken okTokenEx 100 =
      (Except.ok (Token.fresh newTokenRes 100),
        { sampleClient with token := Token.fresh newTokenRes 100 },
        [refreshRequest sampleClient]) ∧
    sampleClient.RefreshToken errTokenEx 100 =
      (Except.error "Unauthorized: Invalid token.", sampleClient,
        [refreshRequest sampleClient]) ∧
    callApi Method.GET "users/limits" Params.noParams sampleClient true 100
        errTokenEx okLimitsEx =
      ⟨Except.error "Unauthorized: Invalid token.", sampleClient,
        [refreshRequest sampleClient]⟩ :=
  C3_refresh_replaces_or_aborts sampleClient 100 okTokenEx errTokenEx newTokenRes
    "Unauthorized: Invalid token." Method.GET "users/limits" Params.noParams
    okLimitsEx (by decide) (by decide) (by decide) (by decide)

/-- C4: Authenticate on success stores the returned token with valid_until
equal to the time of the call plus expires_in, and stores
Credentials(client_id, client_secret, grant_type="refresh_token") derived
from the login credentials; on failure the client state is left exactly as it
was (in particular an unauthenticated client stays unauthenticated). -/
theorem C4_authenticate_stores_token (c : Client) (credentials : LoginCredentials)
    (now : Int) (exS exF : Exchange TokenRes) (tres : TokenRes) (e : String)
    (hS : receiveResult exS = Except.ok tres)
    (hF : receiveResult exF = Except.error e) :
    c.Authenticate credentials exS now =
      (Except.ok (Token.fresh tres now),
        { c with
          token := Token.fresh tres now,
          credentials :=
            ⟨credentials.credentials.clientId, credentials.credentials.clientSecret,
              "refresh_token"⟩ },
        [authRequest c credentials]) ∧
    (Token.fresh tres now).validUntil = tres.token.expiresIn + now ∧
    c.Authenticate credentials exF now =
      (Except.error e, c, [authRequest c credentials]) :=
  ⟨Authenticate_ok c credentials exS now tres hS, rfl,
    Authenticate_err c credentials exF now e hF⟩

/-- Witness for C4 at concrete inputs. -/
theorem C4_witness :
    zeroClient.Authenticate sampleLogin okTokenEx 50 =
      (Except.ok (Token.fresh newTokenRes 50),
        { zeroClient with
          token := Token.fresh newTokenRes 50,
          credentials := ⟨"client-1", "secret-1", "refresh_token"⟩ },
        [authRequest zeroClient sampleLogin]) ∧
    (Token.fresh newTokenRes 50).validUntil = newTokenRes.token.expiresIn + 50 ∧
    zeroClient.Authenticate sampleLogin errTokenEx 50 =
      (Except.error "Unauthorized: Invalid token.", zeroClient,
        [authRequest zeroClient sampleLogin]) :=
  C4_authenticate_stores_token zeroClient sampleLogin 50 okTokenEx errTokenEx
    newTokenRes "Unauthorized: Invalid token." (by decide) (by decide)

/-- C5 counterexample: the claimed invariant — reachable clients have a token
whose valid_until was computed at the most recent successful
authenticate/refresh and credentials non-zero only after a successful
password-grant authentication — is false: NewFromConfig installs non-zero
credentials at construction, before any authentication at all (concretely,
the sandbox client built from a config holding sampleCreds and no token,
running no operations). -/
theorem C5_counterexample :
    ¬ (∀ (c0 : Client) (ops : List Op), EntryClient c0 →
        (((runOps c0 ops).token = Token.zero ∨
          ∃ g, lastGrant c0 ops = some g ∧
            (runOps c0 ops).token.validUntil = g.2 + g.1) ∧
         ((runOps c0 ops).credentials ≠ Credentials.zero →
           hadAuthSuccess ops = true))) := by
  intro h
  have hentry : EntryClient configClient :=
    Or.inr (Or.inr ⟨"sandbox", ⟨sampleCreds, Token.zero⟩, by decide⟩)
  have h2 := (h configClient [] hentry).2 (by decide)
  exact absurd h2 (by decide)

/-- C5 amended: for every client built by New, NewWithToken or NewFromConfig
and any operation sequence, the stored token is the constructor-supplied one
when no successful authenticate/refresh occurred during the run, and
otherwise its valid_until equals expires_in + now of the most recent
successful authenticate/refresh call; the credentials are non-zero only if
non-zero credentials were supplied at construction (NewFromConfig) or a
successful password-grant authentication occurred. -/
theorem C5_token_invariant_amended (c0 : Client) (ops : List Op)
    (_h : EntryClient c0) :
    (match lastGrant c0 ops with
     | some g => (runOps c0 ops).token.validUntil = g.2 + g.1
     | none => (runOps c0 ops).token = c0.token) ∧
    ((runOps c0 ops).credentials ≠ Credentials.zero →
      c0.credentials ≠ Credentials.zero ∨ hadAuthSuccess ops = true) := by
  refine ⟨runOps_token_provenance ops c0, ?_⟩
  intro hne
  rcases runOps_credentials_provenance ops c0 with h2 | h2
  · left; rw [← h2]; exact hne
  · right; exact h2

/-- Witness for C5 at concrete inputs: a config-built client running one
successful password-grant authentication at time 50. -/
theorem C5_witness :
    (runOps configClient [Op.authenticate sampleLogin okTokenEx 50]).token.validUntil =
      3600 + 50 ∧
    ((runOps configClient [Op.authenticate sampleLogin okTokenEx 50]).credentials ≠
        Credentials.zero →
      configClient.credentials ≠ Credentials.zero ∨
        hadAuthSuccess [Op.authenticate sampleLogin okTokenEx 50] = true) := by
  have h := C5_token_invariant_amended configClient
    [Op.authenticate sampleLogin okTokenEx 50]
    (Or.inr (Or.inr ⟨"sandbox", ⟨sampleCreds, Token.zero⟩, by decide⟩))
  exact ⟨h.1, h.2⟩

/-- C6 counterexample: the claim says a non-200 HTTP status always yields an
error, but callApi never consults the status code (it discards the response
object): an HTTP 500 answer whose body decoded to nothing — empty error
object — makes GetLimits return a successful zero-value result. -/
theorem C6_counterexample :
    status500LimitsEx.status ≠ 200 ∧
    freshClient.GetLimits 0 okTokenEx status500LimitsEx =
      (Except.ok Limits.zero, freshClient,
        [⟨Method.GET, freshClient.httpBase ++ "users/limits",
          some ("Bearer " ++ freshClient.token.accessToken), Params.noParams⟩]) := by
  constructor
  · decide
  · decide

/-- C6 amended: an operation classifies an exchange as a success exactly when
the transport succeeded and the decoded error object is the zero value; the
HTTP status code is never consulted, so the classification is invariant under
changing it; a non-zero decoded error object yields the combined API error
and a transport failure is surfaced verbatim, so the two are distinct error
classes. -/
theorem C6_success_classification_amended (α : Type) (ex : Exchange α) (s : Nat)
    (exN exT : Exchange α) (e : String)
    (hN1 : exN.httpErr = none) (hN2 : exN.failure ≠ ErrorRes.zero)
    (hT : exT.httpErr = some e) :
    (exOk ex = true ↔ (ex.httpErr = none ∧ ex.failure = ErrorRes.zero)) ∧
    receiveResult { ex with status := s } = receiveResult ex ∧
    receiveResult exN =
      Except.error (exN.failure.errorType ++ ": " ++ exN.failure.message) ∧
    receiveResult exT = Except.error e := by
  refine ⟨?_, rfl, ?_, ?_⟩
  · cases h : ex.httpErr with
    | some e2 => simp [exOk, receiveResult, h]
    | none =>
      by_cases h2 : ex.failure = ErrorRes.zero <;> simp [exOk, receiveResult, h, h2]
  · simp [receiveResult, hN1, hN2]
  · simp [receiveResult, hT]

/-- Witness for C6 amended at concrete inputs. -/
theorem C6_witness :
    (exOk errLimitsEx = true ↔
      (errLimitsEx.httpErr = none ∧ errLimitsEx.failure = ErrorRes.zero)) ∧
    receiveResult { errLimitsEx with status := 200 } = receiveResult errLimitsEx ∧
    receiveResult errLimitsEx = Except.error "Unauthorized: Invalid token." ∧
    receiveResult transportFailEx = Except.error "connection refused" := by
  have h := C6_success_classification_amended LimitsRes errLimitsEx 200
    errLimitsEx transportFailEx "connection refused" (by decide) (by decide) (by decide)
  exact ⟨h.1, h.2.1, h.2.2.1, h.2.2.2⟩

/-- C7: a call that receives a response (no transport error) carrying a
non-empty error object returns the error whose message is exactly errorType
followed by ": " followed by message, independently of the HTTP status code,
and the operation carries no success payload (GetLimits instance shown). -/
theorem C7_error_object_surfaced (α : Type) (gex : Exchange α) (s : Nat)
    (c : Client) (now : Int) (rex : Exchange TokenRes) (ex : Exchange LimitsRes)
    (hg1 : gex.httpErr = none)
    (hg2 : gex.failure.errorType ≠ "" ∨ gex.failure.message ≠ "")
    (h1 : ex.httpErr = none)
    (h2 : ex.failure.errorType ≠ "" ∨ ex.failure.message ≠ "")
    (h3 : c.token ≠ Token.zero) (h4 : ¬ now ≥ c.token.validUntil - 30) :
    receiveResult gex =
      Except.error (gex.failure.errorType ++ ": " ++ gex.failure.message) ∧
    receiveResult { gex with status := s } =
      Except.error (gex.failure.errorType ++ ": " ++ gex.failure.message) ∧
    c.GetLimits now rex ex =
      (Except.error (ex.failure.errorType ++ ": " ++ ex.failure.message), c,
        [⟨Method.GET, c.httpBase ++ "users/limits",
          some ("Bearer " ++ c.token.accessToken), Params.noParams⟩]) := by
  have hne : gex.failure ≠ ErrorRes.zero := by
    intro hh
    rw [hh] at hg2
    simp [ErrorRes.zero] at hg2
  have hne2 : ex.failure ≠ ErrorRes.zero := by
    intro hh
    rw [hh] at h2
    simp [ErrorRes.zero] at h2
  refine ⟨?_, ?_, ?_⟩
  · simp [receiveResult, hg1, hne]
  · simp [receiveResult, hg1, hne]
  · simp [Client.GetLimits, callApi_auth_fresh Method.GET "users/limits" Params.noParams c now rex ex h3 h4,
      receiveResult, h1, hne2, Except.map]

/-- Witness for C7: the spec example — HTTP 401 with errorType Unauthorized
and message Invalid token. surfaces as "Unauthorized: Invalid token.". -/
theorem C7_witness :
    receiveResult errLimitsEx = Except.error "Unauthorized: Invalid token." ∧
    receiveResult { errLimitsEx with status := 200 } =
      Except.error "Unauthorized: Invalid token." ∧
    freshClient.GetLimits 0 okTokenEx errLimitsEx =
      (Except.error "Unauthorized: Invalid token.", freshClient,
        [⟨Method.GET, freshClient.httpBase ++ "users/limits",
          some ("Bearer " ++ freshClient.token.accessToken), Params.noParams⟩]) := by
  have h := C7_error_object_surfaced LimitsRes errLimitsEx 200 freshClient 0
    okTokenEx errLimitsEx (by decide) (by decide) (by decide) (by decide)
    (by decide) (by decide)
  exact ⟨h.1, h.2.1, h.2.2⟩

/-- C8: RefreshToken on a client with zero stored credentials and zero token
sends the refresh request with empty credentials; when the token endpoint
rejects it, the error is returned and the stored token stays at its previous
zero value. -/
theorem C8_refresh_without_authenticate (c : Client) (ex : Exchange TokenRes)
    (now : Int) (e : String)
    (h1 : c.credentials = Credentials.zero) (h2 : c.token = Token.zero)
    (h3 : receiveResult ex = Except.error e) :
    c.RefreshToken ex now =
      (Except.error e, c,
        [⟨Method.POST, c.httpBase ++ "oauth/tokens", none,
          Params.tokenCreds ⟨Credentials.zero, ""⟩⟩]) ∧
    (c.RefreshToken ex now).2.1.token = Token.zero := by
  have h := RefreshToken_err c ex now e h3
  constructor
  · rw [h]
    simp [refreshRequest, h1, h2, Token.zero]
  · rw [h]
    exact h2

/-- Witness for C8 at concrete inputs. -/
theorem C8_witness :
    zeroClient.RefreshToken errTokenEx 0 =
      (Except.error "Unauthorized: Invalid token.", zeroClient,
        [⟨Method.POST, zeroClient.httpBase ++ "oauth/tokens", none,
          Params.tokenCreds ⟨Credentials.zero, ""⟩⟩]) ∧
    (zeroClient.RefreshToken errTokenEx 0).2.1.token = Token.zero := by
  have h := C8_refresh_without_authenticate zeroClient errTokenEx 0
    "Unauthorized: Invalid token." (by decide) (by decide) (by decide)
  exact ⟨h.1, h.2⟩

/-- C9: the three constructors succeed exactly for the modes "sandbox" and
"production" — handing back the client with the requested mode, stored token
and credentials — select the sandbox base URL for sandbox and the production
base URL for production (requests are issued against that base), and return
the "Invalid mode" error with no client for every other mode value. -/
theorem C9_mode_validation (mode : String) (token : Token) (config : Config)
    (ex0 : Exchange AllRatesRes) :
    ((mode = "sandbox" ∨ mode = "production") →
      (New mode = Except.ok ⟨mode, Token.zero, Credentials.zero⟩ ∧
        NewWithToken mode token = Except.ok ⟨mode, token, Credentials.zero⟩ ∧
        NewFromConfig mode config = Except.ok ⟨mode, config.token, config.credentials⟩)) ∧
    (mode = "sandbox" → Client.httpBase ⟨mode, token, Credentials.zero⟩ = sandboxBaseURL) ∧
    (mode = "production" → Client.httpBase ⟨mode, token, Credentials.zero⟩ = baseURL) ∧
    ((Client.mk mode token Credentials.zero).GetAllRates ex0).2 =
      [⟨Method.GET, Client.httpBase ⟨mode, token, Credentials.zero⟩ ++ "rates",
        none, Params.noParams⟩] ∧
    (¬ (mode = "sandbox" ∨ mode = "production") →
      (New mode = Except.error "Invalid mode" ∧
        NewWithToken mode token = Except.error "Invalid mode" ∧
        NewFromConfig mode config = Except.error "Invalid mode")) := by
  refine ⟨?_, ?_, ?_, ?_, ?_⟩
  · intro h
    exact ⟨by simp [New, NewWithToken, h], by simp [NewWithToken, h],
      by simp [NewFromConfig, h]⟩
  · intro h
    simp [Client.httpBase, h]
  · intro h
    simp [Client.httpBase, h]
  · cases h : receiveResult ex0 with
    | ok res => simp [Client.GetAllRates, callApiNoAuth, h]
    | error e => simp [Client.GetAllRates, callApiNoAuth, h]
  · intro h
    exact ⟨by simp [New, NewWithToken, h], by simp [NewWithToken, h],
      by simp [NewFromConfig, h]⟩

/-- Witness for C9 at the concrete modes "sandbox", "production" and "test"
(the invalid mode exercised by the repository's own test). -/
theorem C9_witness :
    New "sandbox" = Except.ok ⟨"sandbox", Token.zero, Credentials.zero⟩ ∧
    Client.httpBase ⟨"sandbox", Token.zero, Credentials.zero⟩ = sandboxBaseURL ∧
    New "production" = Except.ok ⟨"production", Token.zero, Credentials.zero⟩ ∧
    Client.httpBase ⟨"production", Token.zero, Credentials.zero⟩ = baseURL ∧
    New "test" = Except.error "Invalid mode" ∧
    NewWithToken "test" Token.zero = Except.error "Invalid mode" ∧
    NewFromConfig "test" ⟨sampleCreds, Token.zero⟩ = Except.error "Invalid mode" := by
  have hs := C9_mode_validation "sandbox" Token.zero ⟨sampleCreds, Token.zero⟩ okAllRatesEx
  have hp := C9_mode_validation "production" Token.zero ⟨sampleCreds, Token.zero⟩ okAllRatesEx
  have ht := C9_mode_validation "test" Token.zero ⟨sampleCreds, Token.zero⟩ okAllRatesEx
  exact ⟨(hs.1 (Or.inl rfl)).1, hs.2.1 rfl, (hp.1 (Or.inr rfl)).1, hp.2.2.1 rfl,
    (ht.2.2.2.2 (by decide)).1, (ht.2.2.2.2 (by decide)).2.1,
    (ht.2.2.2.2 (by decide)).2.2⟩

/-- C10: TokenAuthenticate ignores its token argument entirely and is
extensionally equal to Authenticate: same result, same post-state, same
trace, for every client state, login credentials and token values. -/
theorem C10_tokenAuthenticate_is_authenticate (c : Client)
    (credentials : LoginCredentials) (token1 token2 : Token)
    (ex : Exchange TokenRes) (now : Int) :
    c.TokenAuthenticate credentials token1 ex now = c.Authenticate credentials ex now ∧
    c.TokenAuthenticate credentials token1 ex now =
      c.TokenAuthenticate credentials token2 ex now :=
  ⟨rfl, rfl⟩

end Bitwire
